import Mathlib

/-!
Verification of the real-time multiplayer dodge-game engine in `server.js`
(Enhanced Evades server).

The embedding is a shallow translation of the relevant parts of `server.js`:

* JS numbers holding coordinates, sizes and velocities are modelled by `ℚ`
  (the arithmetic appearing in the verified properties is exact);
* millisecond timestamps and scores are modelled by `ℤ`;
* `Math.floor(a / b)` and `Math.ceil(a / b)` on integer operands are
  `jsFloorDiv` and `jsCeilDiv`;
* JS objects used as string-keyed maps (`players`, `lobbies`,
  `recentlyDeadIPs`, `lobby.players`) are association lists with the
  operations `lookupKey`, `setKey` (field assignment) and `eraseKey`
  (the `delete` operator);
* `Math.random()` results and the ids produced by `generateId()` are passed
  in as explicit oracle arguments, as is the current time `Date.now()`;
* `Math.sqrt` (used only for normalising the keyboard direction vector) is
  passed in as an oracle function argument: every theorem about the input
  handler holds for an arbitrary interpretation of it;
* outbound network traffic (`ws.send`, broadcasts) and timer manipulation
  (`setInterval` / `clearInterval`) are recorded as `Event` values; a timer
  handle stored in a lobby is modelled by a `Bool` (`true` = timer set).
-/

set_option maxRecDepth 100000

namespace Evades

/-! ### Game constants (server.js lines 20-41) -/

def CANVAS_WIDTH : ℚ := 1200
def CANVAS_HEIGHT : ℚ := 800
def PLAYER_SIZE : ℚ := 15
def PLAYER_SPEED : ℚ := 3.5
def OBSTACLE_BASE_SIZE : ℚ := 25
def LOBBY_LEVEL_SCORE_THRESHOLD : ℤ := 250
def BASE_SPAWN_INTERVAL : ℚ := 120
def SPAWN_RATE_LEVEL_MULTIPLIER : ℚ := 0.22
def RESPAWN_TIMEOUT : ℤ := 15000

/-- SAFE_ZONE_X_BOUNDARY = CANVAS_WIDTH * SAFE_ZONE_WIDTH_RATIO with the
ratio constant 0.20 inlined. -/
def SAFE_ZONE_X_BOUNDARY : ℚ := CANVAS_WIDTH * 0.20

def PLAYER_BASE_XP_NEEDED : ℤ := 100
def PLAYER_XP_INCREMENT_FACTOR : ℚ := 1.2
def PLAYER_XP_PER_GAME_TICK : ℤ := 1

def COLORS : List String :=
  ["#FF6347", "#4682B4", "#32CD32", "#FFD700", "#6A5ACD", "#FF69B4", "#00CED1", "#FFA07A"]

/-! ### JS primitive helpers -/

/-- Math.floor(a / b) on integer operands (b positive in all uses). -/
def jsFloorDiv (a b : ℤ) : ℤ := Int.fdiv a b

/-- Math.ceil(a / b) on integer operands (b positive in all uses). -/
def jsCeilDiv (a b : ℤ) : ℤ := -(Int.fdiv (-a) b)

/-- JS String.prototype.trim, over the character list of the string. -/
def jsTrim (s : String) : String :=
  ⟨((s.data.dropWhile Char.isWhitespace).reverse.dropWhile Char.isWhitespace).reverse⟩

/-- JS s.substring(0, n). -/
def jsSubstrTo (n : Nat) (s : String) : String := ⟨s.data.take n⟩

/-- JS String.prototype.toLowerCase. -/
def jsToLower (s : String) : String := ⟨s.data.map Char.toLower⟩

/-! ### String-keyed maps (JS objects)

`lookupKey k m` is `m[k]`, `setKey k v m` is `m[k] = v` (the entry keeps its
place, a new key is appended), `eraseKey k m` is `delete m[k]`. -/

def lookupKey {β : Type} (k : String) : List (String × β) → Option β
  | [] => none
  | (k', v) :: rest => if k' = k then some v else lookupKey k rest

def setKey {β : Type} (k : String) (v : β) : List (String × β) → List (String × β)
  | [] => [(k, v)]
  | (k', v') :: rest => if k' = k then (k, v) :: rest else (k', v') :: setKey k v rest

def eraseKey {β : Type} (k : String) : List (String × β) → List (String × β)
  | [] => []
  | (k', v') :: rest => if k' = k then eraseKey k rest else (k', v') :: eraseKey k rest

/-! ### Data model -/

/-- Per-lobby player state (the object built in addPlayerToLobby,
server.js lines 179-191). -/
structure Membership where
  x : ℚ
  y : ℚ
  color : String
  isAlive : Bool
  size : ℚ
  useMouse : Bool
  mousePos : ℚ × ℚ
  keys : List String
  level : ℤ
  xp : ℤ
  xpNeeded : ℤ
deriving DecidableEq

/-- An obstacle (server.js line 294). size is a diameter. -/
structure Obstacle where
  id : Nat
  x : ℚ
  y : ℚ
  vx : ℚ
  vy : ℚ
  size : ℚ
  color : String
deriving DecidableEq

/-- Global per-connection player record (server.js line 442; the ws handle
is not modelled). -/
structure GPlayer where
  username : String
  ip : String
  lobbyId : Option String
deriving DecidableEq

/-- A lobby (server.js lines 128-142). The two timer handles are modelled
as Booleans: true means the corresponding setInterval is active. -/
structure Lobby where
  id : String
  name : String
  password : Option String
  passwordProtected : Bool
  players : List (String × Membership)
  obstacles : List Obstacle
  lobbyLevel : ℤ
  score : ℤ
  gameTimeStart : ℤ
  nextObstacleId : Nat
  gameRunning : Bool
  gameLoopInterval : Bool
  spawnTimer : Bool
deriving DecidableEq

/-- One row of the lobby-browser list (server.js lines 156-161). -/
structure LobbyInfo where
  id : String
  name : String
  playerCount : Nat
  passwordProtected : Bool
deriving DecidableEq

/-- Server-to-client messages (the fields the verified claims depend on). -/
inductive SMsg where
  | lobbyList (lobbies : List LobbyInfo)
  | respawnTimeout (timeLeft : ℤ)
  | joinSuccess (lobbyId : String) (lobbyName : String) (playerId : String)
  | joinFailed (reason : String)
  | passwordRequired (lobbyId : String)
  | createFailed (reason : String)
  | lobbyLevelUp (newLobbyLevel : ℤ)
  | playerLeveledUp (playerId : String) (newLevel : ℤ) (xpNeeded : ℤ)
  | gameState (lobbyLevel : ℤ) (score : ℤ)
deriving DecidableEq

/-- Observable side effects: outbound messages and timer manipulation. -/
inductive Event where
  | send (playerId : String) (msg : SMsg)
  | broadcast (lobbyId : String) (msg : SMsg)
  | cancelSpawnTimer (lobbyId : String)
  | cancelGameLoop (lobbyId : String)
  | startSpawnTimer (lobbyId : String) (interval : ℚ)
  | startGameLoop (lobbyId : String)
  | closeConn (playerId : String) (code : Nat)
deriving DecidableEq

/-- The process-wide mutable state (server.js lines 44-48). -/
structure ServerState where
  players : List (String × GPlayer)
  lobbies : List (String × Lobby)
  recentlyDeadIPs : List (String × ℤ)
  mainLobbyId : String
  globalColorIndex : Nat
deriving DecidableEq

/-! ### Helper functions (server.js lines 60-122) -/

/-- getRandomColor (lines 60-64): the color for the current value of
globalColorIndex (the index increment happens at the call site model). -/
def getRandomColor (globalColorIndex : Nat) : String :=
  COLORS.getD (globalColorIndex % COLORS.length) ""

/-- getLobbyList (lines 155-162). -/
def getLobbyList (st : ServerState) : List LobbyInfo :=
  st.lobbies.map fun p =>
    { id := p.2.id, name := p.2.name, playerCount := p.2.players.length,
      passwordProtected := p.2.passwordProtected }

/-- broadcastLobbyListUpdate (lines 627-635): sends the lobby list to every
player that is not currently in a lobby. -/
def broadcastLobbyListUpdate (st : ServerState) : List Event :=
  (st.players.filter fun p => p.2.lobbyId.isNone).map fun p =>
    Event.send p.1 (SMsg.lobbyList (getLobbyList st))

/-! ### Lobby management (server.js lines 126-300) -/

/-- createLobby (lines 126-145). The generated id and Date.now() are oracle
arguments. -/
def createLobby (st : ServerState) (lobbyId : String) (lobbyName : String)
    (password : Option String) (now : ℤ) : ServerState × Lobby :=
  let lobby : Lobby :=
    { id := lobbyId, name := lobbyName, password := password,
      passwordProtected := password.isSome, players := [], obstacles := [],
      lobbyLevel := 1, score := 0, gameTimeStart := now, nextObstacleId := 0,
      gameRunning := false, gameLoopInterval := false, spawnTimer := false }
  ({ st with lobbies := setKey lobbyId lobby st.lobbies }, lobby)

/-- The spawn interval recomputed by startSpawning (line 264). -/
def spawnIntervalFor (lobbyLevel : ℤ) : ℚ :=
  max 80 (BASE_SPAWN_INTERVAL / (1 + ((lobbyLevel : ℚ) - 1) * SPAWN_RATE_LEVEL_MULTIPLIER))

/-- startSpawning (lines 259-266): clears any existing spawn timer and starts
a new one with the recomputed interval. -/
def startSpawning (lobby : Lobby) : Lobby × List Event :=
  let ev := if lobby.spawnTimer then [Event.cancelSpawnTimer lobby.id] else []
  ({ lobby with spawnTimer := true },
   ev ++ [Event.startSpawnTimer lobby.id (spawnIntervalFor lobby.lobbyLevel)])

/-- startGameIfNeeded (lines 233-246). -/
def startGameIfNeeded (st : ServerState) (lobbyId : String) (now : ℤ) :
    ServerState × List Event :=
  match lookupKey lobbyId st.lobbies with
  | none => (st, [])
  | some lobby =>
    if lobby.gameRunning || lobby.players.length == 0 then (st, [])
    else
      let lobby := { lobby with gameRunning := true, gameTimeStart := now,
                                lobbyLevel := 1, score := 0, obstacles := [] }
      let p1 := startSpawning lobby
      let p2 :=
        if !p1.1.gameLoopInterval then
          ({ p1.1 with gameLoopInterval := true }, [Event.startGameLoop lobbyId])
        else (p1.1, [])
      ({ st with lobbies := setKey lobbyId p2.1 st.lobbies }, p1.2 ++ p2.2)

/-- stopGameIfEmpty (lines 248-257). -/
def stopGameIfEmpty (st : ServerState) (lobbyId : String) : ServerState × List Event :=
  match lookupKey lobbyId st.lobbies with
  | none => (st, [])
  | some lobby =>
    if !lobby.gameRunning || lobby.players.length > 0 then (st, [])
    else
      let ev := (if lobby.spawnTimer then [Event.cancelSpawnTimer lobbyId] else []) ++
                (if lobby.gameLoopInterval then [Event.cancelGameLoop lobbyId] else [])
      let lobby := { lobby with gameRunning := false, spawnTimer := false,
                                gameLoopInterval := false, obstacles := [] }
      ({ st with lobbies := setKey lobbyId lobby st.lobbies }, ev)

/-- removePlayerFromLobby (lines 199-229). Date.now() is the oracle `now`.
The JS truthiness test on recentlyDeadIPs[ip] is modelled with getD 0. -/
def removePlayerFromLobby (st : ServerState) (playerId lobbyId : String)
    (recordDeadIp : Bool) (now : ℤ) : ServerState × List Event :=
  match lookupKey lobbyId st.lobbies with
  | none => (st, [])
  | some lobby =>
    match lookupKey playerId lobby.players with
    | none => (st, [])
    | some playerLobby =>
      let playerGlobal := lookupKey playerId st.players
      let newDeadIPs :=
        if recordDeadIp && !playerLobby.isAlive then
          match playerGlobal with
          | some pg =>
            if pg.ip ≠ "" && (lookupKey pg.ip st.recentlyDeadIPs).getD 0 == 0 then
              setKey pg.ip now st.recentlyDeadIPs
            else st.recentlyDeadIPs
          | none => st.recentlyDeadIPs
        else st.recentlyDeadIPs
      let st := { st with recentlyDeadIPs := newDeadIPs }
      let lobby := { lobby with players := eraseKey playerId lobby.players }
      let st := { st with lobbies := setKey lobbyId lobby st.lobbies }
      let st :=
        match playerGlobal with
        | some pg => { st with players := setKey playerId { pg with lobbyId := none } st.players }
        | none => st
      if lobbyId != st.mainLobbyId && lobby.players.length == 0 then
        let ev := (if lobby.spawnTimer then [Event.cancelSpawnTimer lobbyId] else []) ++
                  (if lobby.gameLoopInterval then [Event.cancelGameLoop lobbyId] else [])
        let st := { st with lobbies := eraseKey lobbyId st.lobbies }
        (st, ev ++ broadcastLobbyListUpdate st)
      else
        stopGameIfEmpty st lobbyId

/-- The fresh membership object built by addPlayerToLobby (lines 179-191).
`r` is the Math.random() oracle; the color argument is the value of
getRandomColor at the current global color index. -/
def newMembership (r : ℚ) (color : String) : Membership :=
  { x := SAFE_ZONE_X_BOUNDARY / 2,
    y := CANVAS_HEIGHT / 2 + (r - 0.5) * 100,
    color := color,
    isAlive := true,
    size := PLAYER_SIZE,
    useMouse := false,
    mousePos := (CANVAS_WIDTH / 2, CANVAS_HEIGHT / 2),
    keys := [],
    level := 1,
    xp := 0,
    xpNeeded := PLAYER_BASE_XP_NEEDED }

/-- addPlayerToLobby (lines 165-196). Returns the updated state, the emitted
events and the Boolean result of the JS function. The inner re-lookup after
the possible removal mirrors the JS code mutating through captured references
(the target lobby is unaffected by the removal, the global player record may
have had its lobbyId nulled). -/
def addPlayerToLobby (st : ServerState) (playerId lobbyId : String) (r : ℚ)
    (now : ℤ) : ServerState × List Event × Bool :=
  match lookupKey lobbyId st.lobbies, lookupKey playerId st.players with
  | some _, some player =>
    let rem :=
      match player.lobbyId with
      | some oldLid =>
        if oldLid ≠ lobbyId ∧ (lookupKey oldLid st.lobbies).isSome then
          removePlayerFromLobby st playerId oldLid false now
        else (st, [])
      | none => (st, [])
    let st := rem.1
    match lookupKey lobbyId st.lobbies, lookupKey playerId st.players with
    | some lobby, some player =>
      let st := { st with players := setKey playerId { player with lobbyId := some lobbyId } st.players }
      let membership := newMembership r (getRandomColor st.globalColorIndex)
      let st := { st with globalColorIndex := st.globalColorIndex + 1 }
      let lobby := { lobby with players := setKey playerId membership lobby.players }
      let st := { st with lobbies := setKey lobbyId lobby st.lobbies }
      let start := startGameIfNeeded st lobbyId now
      (start.1, rem.2 ++ start.2, true)
    | _, _ => (st, rem.2, false)
  | _, _ => (st, [], false)

/-! ### The per-lobby game loop (server.js lines 303-420), split into its
steps. -/

/-- Whether any member of the lobby is alive (line 317). -/
def anyMemberAlive (players : List (String × Membership)) : Bool :=
  players.any fun p => p.2.isAlive

/-- Score update (lines 316-321): recompute the score from the session start
while someone is alive, otherwise shift gameTimeStart forward so the score is
paused. -/
def scoreStep (lobby : Lobby) (now : ℤ) : Lobby :=
  if anyMemberAlive lobby.players then
    { lobby with score := jsFloorDiv (now - lobby.gameTimeStart) 100 }
  else
    { lobby with gameTimeStart := now - lobby.score * 100 }

/-- Lobby level-up (lines 323-329): a single conditional per tick. -/
def levelUpStep (lobby : Lobby) : Lobby × List Event :=
  let neededScoreForLobbyLevelUp := lobby.lobbyLevel * LOBBY_LEVEL_SCORE_THRESHOLD
  if lobby.score ≥ neededScoreForLobbyLevelUp then
    let lobby := { lobby with lobbyLevel := lobby.lobbyLevel + 1 }
    let sp := startSpawning lobby
    (sp.1, sp.2 ++ [Event.broadcast lobby.id (SMsg.lobbyLevelUp lobby.lobbyLevel)])
  else (lobby, [])

/-- Obstacle movement (line 333). -/
def updateObstacle (o : Obstacle) : Obstacle :=
  { o with x := o.x + o.vx, y := o.y + o.vy }

/-- The filter predicate of lines 334-337, applied to an already-moved
obstacle. -/
def keepObstacle (o : Obstacle) : Bool :=
  if o.x < SAFE_ZONE_X_BOUNDARY - o.size * 2 ∧ o.vx < 0 then false
  else
    decide (o.x > -o.size * 3) && decide (o.x < CANVAS_WIDTH + o.size * 3) &&
    decide (o.y > -o.size * 3) && decide (o.y < CANVAS_HEIGHT + o.size * 3)

/-- Obstacle update (lines 331-338): move every obstacle, then drop the ones
the filter rejects. -/
def obstacleStep (obstacles : List Obstacle) : List Obstacle :=
  (obstacles.map updateObstacle).filter keepObstacle

/-- Per-player XP gain and leveling (lines 348-362). -/
def xpStep (lobbyId playerId : String) (m : Membership) : Membership × List Event :=
  if m.isAlive then
    let m := { m with xp := m.xp + PLAYER_XP_PER_GAME_TICK }
    if m.xp ≥ m.xpNeeded then
      let m := { m with level := m.level + 1, xp := 0 }
      let m := { m with xpNeeded :=
        ⌊(PLAYER_BASE_XP_NEEDED : ℚ) * PLAYER_XP_INCREMENT_FACTOR ^ (m.level - 1).toNat⌋ }
      (m, [Event.broadcast lobbyId (SMsg.playerLeveledUp playerId m.level m.xpNeeded)])
    else (m, [])
  else (m, [])

/-- The safe-zone test of line 366: the left edge of the player is inside the
safe strip. -/
def playerInSafeZone (m : Membership) : Prop :=
  m.x - m.size < SAFE_ZONE_X_BOUNDARY

instance (m : Membership) : Decidable (playerInSafeZone m) := by
  unfold playerInSafeZone; infer_instance

/-- The circle-overlap test of lines 373-377: squared distance below the
squared collision radius, the obstacle size being a diameter. -/
def obstacleHitsMember (m : Membership) (o : Obstacle) : Prop :=
  (m.x - o.x) * (m.x - o.x) + (m.y - o.y) * (m.y - o.y) <
    (m.size + o.size / 2) * (m.size + o.size / 2)

instance (m : Membership) (o : Obstacle) : Decidable (obstacleHitsMember m o) := by
  unfold obstacleHitsMember; infer_instance

/-- The obstacle loop of lines 368-382, as structural recursion over the
obstacle list. Obstacles whose center x is inside the safe strip are skipped
(line 371); a hit clears the alive flag and records the IP with the current
time (lines 378-379); the loop never breaks early (line 380). -/
def collideLoop (m : Membership) (ip : String) (now : ℤ) :
    List Obstacle → Membership × List (String × ℤ) → Membership × List (String × ℤ)
  | [], acc => acc
  | o :: rest, acc =>
    collideLoop m ip now rest
      (if o.x < SAFE_ZONE_X_BOUNDARY then acc
       else if obstacleHitsMember m o then
         ({ acc.1 with isAlive := false }, setKey ip now acc.2)
       else acc)

/-- Player-vs-obstacle collision for one member (lines 364-384): the loop is
only entered for an alive member whose body is not in the safe zone. -/
def collideMemberStep (m : Membership) (ip : String) (obstacles : List Obstacle)
    (recentlyDeadIPs : List (String × ℤ)) (now : ℤ) :
    Membership × List (String × ℤ) :=
  if m.isAlive ∧ ¬ playerInSafeZone m then
    collideLoop m ip now obstacles (m, recentlyDeadIPs)
  else (m, recentlyDeadIPs)

/-- The per-player section of the game loop (lines 343-385): XP, leveling and
collision, in iteration order over the member ids. -/
def playersTickStep (lobbyId : String) (players : List (String × Membership))
    (playersG : List (String × GPlayer)) (recentlyDeadIPs : List (String × ℤ))
    (obstacles : List Obstacle) (now : ℤ) :
    List (String × Membership) × List (String × ℤ) × List Event :=
  (players.map Prod.fst).foldl
    (fun acc playerId =>
      match lookupKey playerId acc.1, lookupKey playerId playersG with
      | some pLobby, some pGlobal =>
        let x := xpStep lobbyId playerId pLobby
        let c := collideMemberStep x.1 pGlobal.ip obstacles acc.2.1 now
        (setKey playerId c.1 acc.1, c.2, acc.2.2 ++ x.2)
      | _, _ => acc)
    (players, recentlyDeadIPs, [])

/-- Player-vs-player revival (lines 387-410): an alive player touching a dead
one revives it; revivals performed earlier in the outer loop are visible to
later iterations. -/
def revivalStep (players : List (String × Membership)) : List (String × Membership) :=
  let ids := players.map Prod.fst
  ids.foldl
    (fun ps idA =>
      match lookupKey idA ps with
      | none => ps
      | some playerA =>
        if !playerA.isAlive then ps
        else
          ids.foldl
            (fun ps idB =>
              if idA == idB then ps
              else
                match lookupKey idB ps with
                | none => ps
                | some playerB =>
                  if playerB.isAlive then ps
                  else
                    if (playerA.x - playerB.x) * (playerA.x - playerB.x) +
                         (playerA.y - playerB.y) * (playerA.y - playerB.y) <
                       (playerA.size + playerB.size) * (playerA.size + playerB.size) then
                      setKey idB { playerB with isAlive := true } ps
                    else ps)
            ps)
    players

/-- One full tick of gameLoop (lines 303-420) for one lobby. -/
def gameLoopTick (st : ServerState) (lobbyId : String) (now : ℤ) :
    ServerState × List Event :=
  match lookupKey lobbyId st.lobbies with
  | none => (st, [])
  | some lobby =>
    if !lobby.gameRunning then
      ({ st with lobbies := setKey lobbyId { lobby with gameLoopInterval := false } st.lobbies },
       if lobby.gameLoopInterval then [Event.cancelGameLoop lobbyId] else [])
    else
      let lobby := scoreStep lobby now
      let lu := levelUpStep lobby
      let lobby := lu.1
      let lobby := { lobby with obstacles := obstacleStep lobby.obstacles }
      let pt := playersTickStep lobbyId lobby.players st.players st.recentlyDeadIPs
                  lobby.obstacles now
      let lobby := { lobby with players := revivalStep pt.1 }
      let st := { st with lobbies := setKey lobbyId lobby st.lobbies,
                          recentlyDeadIPs := pt.2.1 }
      (st, lu.2 ++ pt.2.2 ++
        [Event.broadcast lobbyId (SMsg.gameState lobby.lobbyLevel lobby.score)])

/-! ### Connection handling (server.js lines 424-445) -/

/-- Outcome of a new websocket connection. -/
inductive ConnOutcome where
  | rejected (timeLeft : ℤ) (closeCode : Nat)
  | accepted (playerId : String)
deriving DecidableEq

/-- The accepting tail of the connection handler (lines 441-445): create the
global player record and send the initial lobby list. -/
def acceptConnection (st : ServerState) (ip : String) (newPid : String) :
    ServerState × ConnOutcome × List Event :=
  let player : GPlayer :=
    { username := "Player_" ++ jsSubstrTo 4 newPid, ip := ip, lobbyId := none }
  let st := { st with players := setKey newPid player st.players }
  (st, ConnOutcome.accepted newPid, [Event.send newPid (SMsg.lobbyList (getLobbyList st))])

/-- The connection handler (lines 424-445). The JS truthiness test on
recentlyDeadIPs[ip] is modelled with getD 0; close code 1008 is the
policy-violation close. Date.now() and the generated player id are oracle
arguments. -/
def handleConnection (st : ServerState) (ip : String) (now : ℤ) (newPid : String) :
    ServerState × ConnOutcome × List Event :=
  let deadTimestamp := (lookupKey ip st.recentlyDeadIPs).getD 0
  if deadTimestamp ≠ 0 then
    let timeSinceDeath := now - deadTimestamp
    if timeSinceDeath < RESPAWN_TIMEOUT then
      let timeLeft := jsCeilDiv (RESPAWN_TIMEOUT - timeSinceDeath) 1000
      (st, ConnOutcome.rejected timeLeft 1008,
       [Event.send newPid (SMsg.respawnTimeout timeLeft)])
    else
      acceptConnection { st with recentlyDeadIPs := eraseKey ip st.recentlyDeadIPs } ip newPid
  else
    acceptConnection st ip newPid

/-! ### Message handling (server.js lines 447-470 and 502-624)

Only the lobby-browser commands are modelled as messages (getLobbies,
createLobby, joinLobby); the in-game input command is modelled separately on
memberships below, and the remaining in-game commands (setUsername, chat) do
not touch the state the verified claims observe. -/

/-- Client-to-server lobby-browser messages. An absent field models a payload
whose field fails the typeof test of the handler. -/
inductive CMsg where
  | getLobbies
  | createLobby (lobbyName : Option String) (password : Option String)
  | joinLobby (lobbyId : Option String) (password : Option String)
deriving DecidableEq

/-- The password normalization of line 512: a non-empty string password is
cut to 20 characters, anything else becomes null. -/
def normalizePassword (password : Option String) : Option String :=
  match password with
  | some p => if p.length > 0 then some (jsSubstrTo 20 p) else none
  | none => none

/-- handleLobbyBrowserCommands (lines 502-560). The generated lobby id,
Math.random() and Date.now() are oracle arguments. -/
def handleLobbyBrowserCommands (st : ServerState) (playerId : String) (data : CMsg)
    (freshLobbyId : String) (r : ℚ) (now : ℤ) : ServerState × List Event :=
  match data with
  | CMsg.getLobbies =>
    (st, [Event.send playerId (SMsg.lobbyList (getLobbyList st))])
  | CMsg.createLobby lobbyName password =>
    match lobbyName with
    | none => (st, [Event.send playerId (SMsg.createFailed "Lobby name cannot be empty.")])
    | some rawName =>
      if (jsTrim rawName).length == 0 then
        (st, [Event.send playerId (SMsg.createFailed "Lobby name cannot be empty.")])
      else
        let name := jsTrim (jsSubstrTo 30 rawName)
        let pass := normalizePassword password
        if st.lobbies.any fun l => jsToLower l.2.name == jsToLower name then
          (st, [Event.send playerId (SMsg.createFailed "Lobby name already exists.")])
        else
          let cr := createLobby st freshLobbyId name pass now
          let add := addPlayerToLobby cr.1 playerId cr.2.id r now
          if add.2.2 then
            (add.1, add.2.1 ++
              [Event.send playerId (SMsg.joinSuccess cr.2.id cr.2.name playerId)] ++
              broadcastLobbyListUpdate add.1)
          else
            let st := add.1
            let st :=
              match lookupKey cr.2.id st.lobbies with
              | some l =>
                if l.players.length == 0 then
                  { st with lobbies := eraseKey cr.2.id st.lobbies }
                else st
              | none => st
            (st, add.2.1 ++
              [Event.send playerId (SMsg.createFailed "Failed to add player to new lobby.")])
  | CMsg.joinLobby lobbyIdOpt password =>
    match lobbyIdOpt with
    | none => (st, [Event.send playerId (SMsg.joinFailed "Missing lobby ID.")])
    | some lid =>
      match lookupKey lid st.lobbies with
      | none => (st, [Event.send playerId (SMsg.joinFailed "Lobby not found.")])
      | some targetLobby =>
        if targetLobby.passwordProtected && password.isNone then
          (st, [Event.send playerId (SMsg.passwordRequired lid)])
        else if targetLobby.passwordProtected && password != targetLobby.password then
          (st, [Event.send playerId (SMsg.joinFailed "Incorrect password.")])
        else
          let add := addPlayerToLobby st playerId lid r now
          if add.2.2 then
            (add.1, add.2.1 ++
              [Event.send playerId (SMsg.joinSuccess lid targetLobby.name playerId)] ++
              broadcastLobbyListUpdate add.1)
          else
            (add.1, add.2.1 ++
              [Event.send playerId (SMsg.joinFailed "Failed to add player (error/full?).")])

/-- handleInGameCommands (lines 562-624), restricted to the lobby-browser
message kinds: after the two consistency checks of lines 563-564, all three
fall into the disallowed-command branch of lines 618-620 and are ignored. -/
def handleInGameCommands (st : ServerState) (playerId lobbyId : String) (data : CMsg) :
    ServerState × List Event :=
  match lookupKey lobbyId st.lobbies with
  | none =>
    let st :=
      match lookupKey playerId st.players with
      | some pg => { st with players := setKey playerId { pg with lobbyId := none } st.players }
      | none => st
    (st, [Event.closeConn playerId 1011])
  | some lobby =>
    match lookupKey playerId lobby.players with
    | none =>
      let lobby := { lobby with players := eraseKey playerId lobby.players }
      let st := { st with lobbies := setKey lobbyId lobby st.lobbies }
      let st :=
        match lookupKey playerId st.players with
        | some pg => { st with players := setKey playerId { pg with lobbyId := none } st.players }
        | none => st
      (st, [Event.closeConn playerId 1011])
    | some _ =>
      match data with
      | CMsg.getLobbies => (st, [])
      | CMsg.createLobby _ _ => (st, [])
      | CMsg.joinLobby _ _ => (st, [])

/-- The message dispatcher (lines 447-470): route by whether the player
currently has a lobby binding. -/
def handleMessage (st : ServerState) (playerId : String) (data : CMsg)
    (freshLobbyId : String) (r : ℚ) (now : ℤ) : ServerState × List Event :=
  match lookupKey playerId st.players with
  | none => (st, [Event.closeConn playerId 1011])
  | some player =>
    match player.lobbyId with
    | none => handleLobbyBrowserCommands st playerId data freshLobbyId r now
    | some lid => handleInGameCommands st playerId lid data

/-! ### The input command (server.js lines 577-605) -/

/-- The payload of an input message. An absent field models a field failing
the truthiness / typeof test of the handler. -/
structure InputData where
  keys : Option (List String)
  mousePos : Option (ℚ × ℚ)
  useMouse : Option Bool
deriving DecidableEq

/-- Lines 579-586: store the supplied key set, the clamped pointer position
and the pointer-mode flag. -/
def applyInputUpdates (m : Membership) (data : InputData) : Membership :=
  let m :=
    match data.keys with
    | some ks => { m with keys := ks }
    | none => m
  let m :=
    match data.mousePos with
    | some mp =>
      { m with mousePos := (max 0 (min CANVAS_WIDTH mp.1), max 0 (min CANVAS_HEIGHT mp.2)) }
    | none => m
  match data.useMouse with
  | some b => { m with useMouse := b }
  | none => m

/-- Lines 588-602: the target position, either the stored pointer position or
one keyboard step along the normalised direction vector. `sqrt` is the
Math.sqrt oracle. -/
def computeTarget (sqrt : ℚ → ℚ) (m : Membership) : ℚ × ℚ :=
  if m.useMouse then m.mousePos
  else
    let dy : ℚ := (if m.keys.contains "w" || m.keys.contains "arrowup" then -1 else 0) +
                  (if m.keys.contains "s" || m.keys.contains "arrowdown" then 1 else 0)
    let dx : ℚ := (if m.keys.contains "a" || m.keys.contains "arrowleft" then -1 else 0) +
                  (if m.keys.contains "d" || m.keys.contains "arrowright" then 1 else 0)
    let len := sqrt (dx * dx + dy * dy)
    if len > 0 then (m.x + dx / len * PLAYER_SPEED, m.y + dy / len * PLAYER_SPEED)
    else (m.x, m.y)

/-- The input command applied to one membership (lines 577-605): a dead
member keeps its state; an alive member gets its inputs stored and its
position moved to the target, clamped to the field bounds. -/
def handleInput (sqrt : ℚ → ℚ) (m : Membership) (data : InputData) : Membership :=
  if m.isAlive then
    let m := applyInputUpdates m data
    let target := computeTarget sqrt m
    { m with x := max m.size (min (CANVAS_WIDTH - m.size) target.1),
             y := max m.size (min (CANVAS_HEIGHT - m.size) target.2) }
  else m

/-- The clamping invariant of the specification: the position stays inside
the field by at least the player radius on each side. -/
def posInv (m : Membership) : Prop :=
  m.size ≤ m.x ∧ m.x ≤ CANVAS_WIDTH - m.size ∧
  m.size ≤ m.y ∧ m.y ≤ CANVAS_HEIGHT - m.size

/-! ### Association-list lemmas -/

@[simp]
theorem lookupKey_setKey_self {β : Type} (k : String) (v : β) (l : List (String × β)) :
    lookupKey k (setKey k v l) = some v := by
  induction l with
  | nil => simp [setKey, lookupKey]
  | cons p rest ih =>
    by_cases h : p.1 = k
    · simp [setKey, lookupKey, h]
    · simp [setKey, lookupKey, h, ih]

theorem lookupKey_setKey_ne {β : Type} {k k' : String} (hne : k' ≠ k) (v : β)
    (l : List (String × β)) : lookupKey k' (setKey k v l) = lookupKey k' l := by
  induction l with
  | nil => simp [setKey, lookupKey, Ne.symm hne]
  | cons p rest ih =>
    by_cases h : p.1 = k
    · subst h
      simp [setKey, lookupKey, hne, Ne.symm hne]
    · simp only [setKey, lookupKey, if_neg h]
      by_cases h2 : p.1 = k'
      · simp [h2]
      · simp [h2, ih]

@[simp]
theorem lookupKey_eraseKey_self {β : Type} (k : String) (l : List (String × β)) :
    lookupKey k (eraseKey k l) = none := by
  induction l with
  | nil => simp [eraseKey, lookupKey]
  | cons p rest ih =>
    by_cases h : p.1 = k
    · simp [eraseKey, h, ih]
    · simp [eraseKey, lookupKey, h, ih]

theorem lookupKey_eraseKey_ne {β : Type} {k k' : String} (hne : k' ≠ k)
    (l : List (String × β)) : lookupKey k' (eraseKey k l) = lookupKey k' l := by
  induction l with
  | nil => simp [eraseKey]
  | cons p rest ih =>
    by_cases h : p.1 = k
    · subst h
      simp [eraseKey, lookupKey, Ne.symm hne, ih]
    · simp only [eraseKey, if_neg h, lookupKey]
      by_cases h2 : p.1 = k'
      · simp [h2]
      · simp [h2, ih]

theorem setKey_idem {β : Type} (k : String) (v : β) (l : List (String × β)) :
    setKey k v (setKey k v l) = setKey k v l := by
  induction l with
  | nil => simp [setKey]
  | cons p rest ih =>
    by_cases h : p.1 = k
    · simp [setKey, h]
    · simp [setKey, h, ih]

theorem mem_of_mem_eraseKey {β : Type} {k : String} {p : String × β}
    {l : List (String × β)} (h : p ∈ eraseKey k l) : p ∈ l ∧ p.1 ≠ k := by
  induction l with
  | nil => simp [eraseKey] at h
  | cons q rest ih =>
    by_cases hq : q.1 = k
    · rw [eraseKey, if_pos hq] at h
      rcases ih h with ⟨h1, h2⟩
      exact ⟨List.mem_cons_of_mem _ h1, h2⟩
    · rw [eraseKey, if_neg hq] at h
      rcases List.mem_cons.mp h with h1 | h1
      · subst h1
        exact ⟨List.mem_cons_self _ _, hq⟩
      · rcases ih h1 with ⟨h2, h3⟩
        exact ⟨List.mem_cons_of_mem _ h2, h3⟩

theorem lookupKey_mem {β : Type} {k : String} {v : β} {l : List (String × β)}
    (h : lookupKey k l = some v) : (k, v) ∈ l := by
  induction l with
  | nil => simp [lookupKey] at h
  | cons p rest ih =>
    by_cases hp : p.1 = k
    · rw [lookupKey, if_pos hp] at h
      rcases p with ⟨k', v'⟩
      cases h
      cases hp
      exact List.mem_cons_self _ _
    · rw [lookupKey, if_neg hp] at h
      exact List.mem_cons_of_mem _ (ih h)

theorem mem_of_mem_setKey {β : Type} {k : String} {v : β} {p : String × β}
    {l : List (String × β)} (h : p ∈ setKey k v l) : p = (k, v) ∨ p ∈ l := by
  induction l with
  | nil => simpa [setKey] using h
  | cons q rest ih =>
    by_cases hq : q.1 = k
    · rw [setKey, if_pos hq] at h
      rcases List.mem_cons.mp h with h1 | h1
      · exact Or.inl h1
      · exact Or.inr (List.mem_cons_of_mem _ h1)
    · rw [setKey, if_neg hq] at h
      rcases List.mem_cons.mp h with h1 | h1
      · exact Or.inr (h1 ▸ List.mem_cons_self _ _)
      · rcases ih h1 with h2 | h2
        · exact Or.inl h2
        · exact Or.inr (List.mem_cons_of_mem _ h2)

/-! ### The collision loop, solved in closed form -/

/-- A hit that the per-tick collision loop counts: an obstacle of the list
whose center is not inside the safe strip and that overlaps the member. -/
def hitBy (m : Membership) (obstacles : List Obstacle) : Prop :=
  ∃ o ∈ obstacles, ¬ o.x < SAFE_ZONE_X_BOUNDARY ∧ obstacleHitsMember m o

instance (m : Membership) (obstacles : List Obstacle) : Decidable (hitBy m obstacles) := by
  unfold hitBy; infer_instance

theorem collideLoop_eq (m : Membership) (ip : String) (now : ℤ)
    (obstacles : List Obstacle) (acc : Membership × List (String × ℤ)) :
    collideLoop m ip now obstacles acc =
      if hitBy m obstacles then ({ acc.1 with isAlive := false }, setKey ip now acc.2)
      else acc := by
  induction obstacles generalizing acc with
  | nil => simp [collideLoop, hitBy]
  | cons o rest ih =>
    have hcons : hitBy m (o :: rest) ↔
        ((¬ o.x < SAFE_ZONE_X_BOUNDARY ∧ obstacleHitsMember m o) ∨ hitBy m rest) := by
      simp [hitBy, List.mem_cons, or_and_right, exists_or]
    by_cases h1 : o.x < SAFE_ZONE_X_BOUNDARY
    · rw [collideLoop, if_pos h1, ih]
      have : hitBy m (o :: rest) ↔ hitBy m rest := by
        rw [hcons]; simp [h1]
      by_cases h2 : hitBy m rest
      · rw [if_pos h2, if_pos (this.mpr h2)]
      · rw [if_neg h2, if_neg (fun hc => h2 (this.mp hc))]
    · by_cases h2 : obstacleHitsMember m o
      · rw [collideLoop, if_neg h1, if_pos h2, ih]
        have hall : hitBy m (o :: rest) := ⟨o, List.mem_cons_self _ _, h1, h2⟩
        rw [if_pos hall]
        by_cases h3 : hitBy m rest
        · rw [if_pos h3]
          simp [setKey_idem]
        · rw [if_neg h3]
      · rw [collideLoop, if_neg h1, if_neg h2, ih]
        have : hitBy m (o :: rest) ↔ hitBy m rest := by
          rw [hcons]; simp [h2]
        by_cases h3 : hitBy m rest
        · rw [if_pos h3, if_pos (this.mpr h3)]
        · rw [if_neg h3, if_neg (fun hc => h3 (this.mp hc))]

/-! ### Claim C2: the per-tick collision step -/

/-- Claim C2, amended: for an alive member whose body is not inside the safe
zone, the collision step kills the member iff some obstacle whose center is
not inside the safe strip overlaps it under the predicate
distance^2 < (memberRadius + obstacleSize/2)^2 (obstacle size a diameter);
on any such hit the pair (ip, now) is written into the RespawnGuard table;
several hits in one tick leave exactly the same outcome as one (the loop
does not short-circuit, but the result is simply death); otherwise member
and table are unchanged. The amendment: obstacles whose center x lies inside
the safe strip are skipped, so a hit by such an obstacle does NOT kill. -/
theorem claim_C2_collision (m : Membership) (ip : String) (obstacles : List Obstacle)
    (recentlyDeadIPs : List (String × ℤ)) (now : ℤ)
    (halive : m.isAlive = true) (hout : ¬ playerInSafeZone m) :
    collideMemberStep m ip obstacles recentlyDeadIPs now =
      if hitBy m obstacles then
        ({ m with isAlive := false }, setKey ip now recentlyDeadIPs)
      else (m, recentlyDeadIPs) := by
  unfold collideMemberStep
  rw [if_pos ⟨halive, hout⟩, collideLoop_eq]

/-- A member just right of the safe zone, used for the C2 witness. -/
def memberOutside : Membership :=
  { x := 300, y := 400, color := "#FF6347", isAlive := true, size := PLAYER_SIZE,
    useMouse := false, mousePos := (600, 400), keys := [], level := 1, xp := 0,
    xpNeeded := 100 }

/-- An obstacle outside the safe strip that overlaps memberOutside. -/
def obstacleHitting : Obstacle :=
  { id := 0, x := 300, y := 410, vx := 0, vy := -1, size := OBSTACLE_BASE_SIZE,
    color := "#ff4444" }

theorem claim_C2_collision_witness :
    collideMemberStep memberOutside "9.9.9.9" [obstacleHitting]
        ([] : List (String × ℤ)) 5000 =
      ({ memberOutside with isAlive := false }, setKey "9.9.9.9" 5000 []) := by
  have hout : ¬ playerInSafeZone memberOutside := by
    norm_num [playerInSafeZone, memberOutside, PLAYER_SIZE, SAFE_ZONE_X_BOUNDARY,
      CANVAS_WIDTH]
  have hhit : hitBy memberOutside [obstacleHitting] := by
    refine ⟨obstacleHitting, List.mem_singleton.mpr rfl, ?_, ?_⟩
    · norm_num [obstacleHitting, SAFE_ZONE_X_BOUNDARY, CANVAS_WIDTH]
    · norm_num [obstacleHitsMember, memberOutside, obstacleHitting, PLAYER_SIZE,
        OBSTACLE_BASE_SIZE]
  rw [claim_C2_collision memberOutside "9.9.9.9" [obstacleHitting] [] 5000 rfl hout,
    if_pos hhit]

/-- A member just outside the safe zone whose body reaches into the strip. -/
def memberNearZone : Membership :=
  { x := 256, y := 400, color := "#4682B4", isAlive := true, size := PLAYER_SIZE,
    useMouse := false, mousePos := (600, 400), keys := [], level := 1, xp := 0,
    xpNeeded := 100 }

/-- An obstacle whose center lies inside the safe strip but which overlaps
memberNearZone under the claimed distance predicate. -/
def obstacleInZone : Obstacle :=
  { id := 1, x := 239, y := 400, vx := 1, vy := 0, size := OBSTACLE_BASE_SIZE,
    color := "#ff4444" }

/-- Claim C2, counterexample to the literal claim: memberNearZone is alive
and not inside the safe zone, obstacleInZone satisfies the claimed overlap
predicate, yet after the collision step the member is still alive and the
RespawnGuard table is untouched, because the obstacle center is inside the
safe strip and the loop skips it. -/
theorem claim_C2_counterexample :
    memberNearZone.isAlive = true ∧
    ¬ playerInSafeZone memberNearZone ∧
    obstacleHitsMember memberNearZone obstacleInZone ∧
    collideMemberStep memberNearZone "8.8.8.8" [obstacleInZone]
        ([] : List (String × ℤ)) 7777 = (memberNearZone, []) := by
  have hout : ¬ playerInSafeZone memberNearZone := by
    norm_num [playerInSafeZone, memberNearZone, PLAYER_SIZE, SAFE_ZONE_X_BOUNDARY,
      CANVAS_WIDTH]
  refine ⟨rfl, hout, ?_, ?_⟩
  · norm_num [obstacleHitsMember, memberNearZone, obstacleInZone, PLAYER_SIZE,
      OBSTACLE_BASE_SIZE]
  · have hnohit : ¬ hitBy memberNearZone [obstacleInZone] := by
      rintro ⟨o, ho, hno, -⟩
      rw [List.mem_singleton] at ho
      subst ho
      exact hno (by norm_num [obstacleInZone, SAFE_ZONE_X_BOUNDARY, CANVAS_WIDTH])
    unfold collideMemberStep
    rw [if_pos ⟨rfl, hout⟩, collideLoop_eq, if_neg hnohit]

/-! ### Claim C10: obstacles inside the safe strip are skipped -/

/-- Claim C10: the collision step gives the same result when all obstacles
whose center x lies inside the safe strip are removed beforehand (they are
skipped before the overlap test), and in particular a member processed
against only such obstacles is never marked dead and triggers no
RespawnGuard write. -/
theorem claim_C10_safe_zone_skip (m : Membership) (ip : String)
    (obstacles : List Obstacle) (recentlyDeadIPs : List (String × ℤ)) (now : ℤ) :
    collideMemberStep m ip obstacles recentlyDeadIPs now =
      collideMemberStep m ip
        (obstacles.filter fun o => decide (¬ o.x < SAFE_ZONE_X_BOUNDARY))
        recentlyDeadIPs now ∧
    ((∀ o ∈ obstacles, o.x < SAFE_ZONE_X_BOUNDARY) →
      collideMemberStep m ip obstacles recentlyDeadIPs now = (m, recentlyDeadIPs)) := by
  have hiff : hitBy m (obstacles.filter fun o => decide (¬ o.x < SAFE_ZONE_X_BOUNDARY)) ↔
      hitBy m obstacles := by
    constructor
    · rintro ⟨o, ho, hno, hhit⟩
      exact ⟨o, (List.mem_filter.mp ho).1, hno, hhit⟩
    · rintro ⟨o, ho, hno, hhit⟩
      exact ⟨o, List.mem_filter.mpr ⟨ho, by simpa using hno⟩, hno, hhit⟩
  constructor
  · unfold collideMemberStep
    by_cases hc : m.isAlive ∧ ¬ playerInSafeZone m
    · rw [if_pos hc, if_pos hc, collideLoop_eq, collideLoop_eq]
      by_cases hh : hitBy m obstacles
      · rw [if_pos hh, if_pos (hiff.mpr hh)]
      · rw [if_neg hh, if_neg (fun hc2 => hh (hiff.mp hc2))]
    · rw [if_neg hc, if_neg hc]
  · intro hall
    unfold collideMemberStep
    by_cases hc : m.isAlive ∧ ¬ playerInSafeZone m
    · rw [if_pos hc, collideLoop_eq, if_neg ?_]
      rintro ⟨o, ho, hno, -⟩
      exact hno (hall o ho)
    · rw [if_neg hc]

/-! ### Claim C6: obstacle positions after the per-tick update -/

/-- Claim C6: after the per-tick position update, every obstacle either lies
within [-3 size, dimension + 3 size] on both axes (the specification calls
the size field the radius of the obstacle), or is absent from the filtered
obstacle list of the next tick. -/
theorem claim_C6_obstacle_bounds (obstacles : List Obstacle) (o : Obstacle)
    (ho : o ∈ obstacles) :
    (-((updateObstacle o).size * 3) ≤ (updateObstacle o).x ∧
     (updateObstacle o).x ≤ CANVAS_WIDTH + (updateObstacle o).size * 3 ∧
     -((updateObstacle o).size * 3) ≤ (updateObstacle o).y ∧
     (updateObstacle o).y ≤ CANVAS_HEIGHT + (updateObstacle o).size * 3) ∨
    updateObstacle o ∉ obstacleStep obstacles := by
  by_cases hk : keepObstacle (updateObstacle o) = true
  · left
    set o' := updateObstacle o with ho'
    unfold keepObstacle at hk
    by_cases hc : o'.x < SAFE_ZONE_X_BOUNDARY - o'.size * 2 ∧ o'.vx < 0
    · rw [if_pos hc] at hk
      exact absurd hk (by simp)
    · rw [if_neg hc] at hk
      simp only [Bool.and_eq_true, decide_eq_true_eq] at hk
      obtain ⟨⟨⟨h1, h2⟩, h3⟩, h4⟩ := hk
      refine ⟨le_of_lt ?_, le_of_lt h2, le_of_lt ?_, le_of_lt h4⟩
      · linarith [h1]
      · linarith [h3]
  · right
    intro hmem
    exact hk (List.mem_filter.mp hmem).2

/-- A concrete obstacle for the C6 witness. -/
def obstacleDrifting : Obstacle :=
  { id := 2, x := 1150, y := 700, vx := 2, vy := 1, size := 30, color := "#ff4444" }

theorem claim_C6_obstacle_bounds_witness :
    obstacleDrifting ∈ [obstacleDrifting] ∧
    ((-((updateObstacle obstacleDrifting).size * 3) ≤ (updateObstacle obstacleDrifting).x ∧
      (updateObstacle obstacleDrifting).x ≤
        CANVAS_WIDTH + (updateObstacle obstacleDrifting).size * 3 ∧
      -((updateObstacle obstacleDrifting).size * 3) ≤ (updateObstacle obstacleDrifting).y ∧
      (updateObstacle obstacleDrifting).y ≤
        CANVAS_HEIGHT + (updateObstacle obstacleDrifting).size * 3) ∨
     updateObstacle obstacleDrifting ∉ obstacleStep [obstacleDrifting]) :=
  ⟨List.mem_singleton.mpr rfl,
   claim_C6_obstacle_bounds [obstacleDrifting] obstacleDrifting
     (List.mem_singleton.mpr rfl)⟩

/-! ### Claim C3: the score rule -/

theorem jsFloorDiv_le_jsFloorDiv {a b : ℤ} (h : a ≤ b) :
    jsFloorDiv a 100 ≤ jsFloorDiv b 100 := by
  unfold jsFloorDiv
  rw [Int.fdiv_eq_ediv _ (by norm_num), Int.fdiv_eq_ediv _ (by norm_num)]
  omega

theorem jsFloorDiv_mul_cancel (s : ℤ) : jsFloorDiv (s * 100) 100 = s := by
  unfold jsFloorDiv
  rw [Int.fdiv_eq_ediv _ (by norm_num)]
  omega

theorem le_jsFloorDiv_add_mul {a : ℤ} (s : ℤ) (h : 0 ≤ a) :
    s ≤ jsFloorDiv (a + s * 100) 100 := by
  unfold jsFloorDiv
  rw [Int.fdiv_eq_ediv _ (by norm_num)]
  omega

theorem scoreStep_alive (lobby : Lobby) (now : ℤ)
    (h : anyMemberAlive lobby.players = true) :
    scoreStep lobby now =
      { lobby with score := jsFloorDiv (now - lobby.gameTimeStart) 100 } := by
  simp [scoreStep, h]

theorem scoreStep_dead (lobby : Lobby) (now : ℤ)
    (h : anyMemberAlive lobby.players = false) :
    scoreStep lobby now = { lobby with gameTimeStart := now - lobby.score * 100 } := by
  simp [scoreStep, h]

/-- Claim C3: at a tick, with someone alive the score is
floor((now - sessionStart)/100); with no one alive the score field is
unchanged and the shifted sessionStart makes the recomputed score equal to
the stored one (freeze); and across two consecutive ticks (the membership
may change arbitrarily in between through collisions and revivals) the score
never decreases, provided time does not run backwards. -/
theorem claim_C3_score (lobby : Lobby) (now now2 : ℤ)
    (ps2 : List (String × Membership)) (hmono : now ≤ now2) :
    (anyMemberAlive lobby.players = true →
      (scoreStep lobby now).score = jsFloorDiv (now - lobby.gameTimeStart) 100) ∧
    (anyMemberAlive lobby.players = false →
      (scoreStep lobby now).score = lobby.score ∧
      jsFloorDiv (now - (scoreStep lobby now).gameTimeStart) 100 = lobby.score) ∧
    (scoreStep lobby now).score ≤
      (scoreStep { scoreStep lobby now with players := ps2 } now2).score := by
  refine ⟨?_, ?_, ?_⟩
  · intro ha
    simp [scoreStep, ha]
  · intro ha
    constructor
    · simp [scoreStep, ha]
    · simp only [scoreStep, ha, Bool.false_eq_true, if_false]
      have : now - (now - lobby.score * 100) = lobby.score * 100 := by ring
      rw [this, jsFloorDiv_mul_cancel]
  · cases hb1 : anyMemberAlive lobby.players with
    | true =>
      rw [scoreStep_alive lobby now hb1]
      cases hb2 : anyMemberAlive ps2 with
      | true =>
        rw [scoreStep_alive _ now2 hb2]
        show jsFloorDiv (now - lobby.gameTimeStart) 100 ≤
          jsFloorDiv (now2 - lobby.gameTimeStart) 100
        exact jsFloorDiv_le_jsFloorDiv (by omega)
      | false =>
        rw [scoreStep_dead _ now2 hb2]
    | false =>
      rw [scoreStep_dead lobby now hb1]
      cases hb2 : anyMemberAlive ps2 with
      | true =>
        rw [scoreStep_alive _ now2 hb2]
        show lobby.score ≤ jsFloorDiv (now2 - (now - lobby.score * 100)) 100
        have heq : now2 - (now - lobby.score * 100) = (now2 - now) + lobby.score * 100 := by
          ring
        rw [heq]
        exact le_jsFloorDiv_add_mul lobby.score (by omega)
      | false =>
        rw [scoreStep_dead _ now2 hb2]

/-- A lobby with one dead member, for the C3 witness. -/
def frozenLobby : Lobby :=
  { id := "F", name := "Frozen", password := none, passwordProtected := false,
    players := [("p1", { memberOutside with isAlive := false })], obstacles := [],
    lobbyLevel := 1, score := 42, gameTimeStart := 100000, nextObstacleId := 0,
    gameRunning := true, gameLoopInterval := true, spawnTimer := true }

theorem claim_C3_score_witness :
    (100000 : ℤ) ≤ 101000 ∧
    (anyMemberAlive frozenLobby.players = false →
      (scoreStep frozenLobby 100000).score = frozenLobby.score ∧
      jsFloorDiv (100000 - (scoreStep frozenLobby 100000).gameTimeStart) 100 =
        frozenLobby.score) :=
  ⟨by decide,
   (claim_C3_score frozenLobby 100000 101000 frozenLobby.players (by decide)).2.1⟩

/-! ### Claim C4: the lobby level-up step -/

/-- Claim C4, amended: the level-up step of a tick is a single conditional,
not a while loop. If score is at least level * LEVEL_SCORE_THRESHOLD the
level is incremented by exactly one, the spawn task is restarted with the
period recomputed for the new level, and a level-up event is emitted to the
lobby; otherwise nothing changes. In particular the level grows by at most
one per tick, and the step does NOT catch up across multiple thresholds
within one tick. -/
theorem claim_C4_levelup (lobby : Lobby) :
    (lobby.score ≥ lobby.lobbyLevel * LOBBY_LEVEL_SCORE_THRESHOLD →
      (levelUpStep lobby).1.lobbyLevel = lobby.lobbyLevel + 1 ∧
      (levelUpStep lobby).1.spawnTimer = true ∧
      Event.startSpawnTimer lobby.id (spawnIntervalFor (lobby.lobbyLevel + 1)) ∈
        (levelUpStep lobby).2 ∧
      Event.broadcast lobby.id (SMsg.lobbyLevelUp (lobby.lobbyLevel + 1)) ∈
        (levelUpStep lobby).2) ∧
    (¬ lobby.score ≥ lobby.lobbyLevel * LOBBY_LEVEL_SCORE_THRESHOLD →
      levelUpStep lobby = (lobby, [])) ∧
    (levelUpStep lobby).1.lobbyLevel ≤ lobby.lobbyLevel + 1 := by
  refine ⟨?_, ?_, ?_⟩
  · intro h
    unfold levelUpStep
    rw [if_pos h]
    refine ⟨rfl, rfl, ?_, ?_⟩
    · simp [startSpawning]
    · simp [startSpawning]
  · intro h
    unfold levelUpStep
    rw [if_neg h]
  · unfold levelUpStep
    by_cases h : lobby.score ≥ lobby.lobbyLevel * LOBBY_LEVEL_SCORE_THRESHOLD
    · rw [if_pos h]
      simp [startSpawning]
    · rw [if_neg h]
      simp

/-- A lobby two thresholds past its level, for the C4 counterexample. -/
def lobbyAt500 : Lobby :=
  { id := "L", name := "Lagged", password := none, passwordProtected := false,
    players := [("p1", memberOutside)], obstacles := [], lobbyLevel := 1,
    score := 500, gameTimeStart := 0, nextObstacleId := 0, gameRunning := true,
    gameLoopInterval := true, spawnTimer := true }

/-- Claim C4, counterexample to the literal claim: with score 500 and level 1
(two thresholds behind), a single level-up step leaves level 2 and the score
still at or above the new requirement, so score < level * threshold does NOT
hold after the step of one tick. -/
theorem claim_C4_counterexample :
    lobbyAt500.score ≥ lobbyAt500.lobbyLevel * LOBBY_LEVEL_SCORE_THRESHOLD ∧
    (levelUpStep lobbyAt500).1.lobbyLevel = 2 ∧
    ¬ (levelUpStep lobbyAt500).1.score <
        (levelUpStep lobbyAt500).1.lobbyLevel * LOBBY_LEVEL_SCORE_THRESHOLD := by
  have hcond : lobbyAt500.score ≥ lobbyAt500.lobbyLevel * LOBBY_LEVEL_SCORE_THRESHOLD := by
    norm_num [lobbyAt500, LOBBY_LEVEL_SCORE_THRESHOLD]
  have hstep : (levelUpStep lobbyAt500).1.lobbyLevel = 2 ∧
      (levelUpStep lobbyAt500).1.score = 500 := by
    unfold levelUpStep
    rw [if_pos hcond]
    exact ⟨by norm_num [startSpawning, lobbyAt500], by simp [startSpawning, lobbyAt500]⟩
  refine ⟨hcond, hstep.1, ?_⟩
  rw [hstep.1, hstep.2]
  norm_num [LOBBY_LEVEL_SCORE_THRESHOLD]

/-! ### Claim C5: the position clamping invariant -/

theorem applyInputUpdates_size (m : Membership) (data : InputData) :
    (applyInputUpdates m data).size = m.size := by
  unfold applyInputUpdates
  rcases data with ⟨k, mp, um⟩
  cases k <;> cases mp <;> cases um <;> rfl

/-- Claim C5: the spawn position assigned on join satisfies the clamping
invariant (for any Math.random() draw), and the input command preserves it
for an arbitrary input payload, arbitrary pointer coordinates and any
interpretation of Math.sqrt: both in pointer mode and keyboard mode the
stored position is clamped to [radius, dimension - radius] on both axes. -/
theorem claim_C5_clamping (sqrt : ℚ → ℚ) (m : Membership) (data : InputData)
    (r : ℚ) (color : String) (hr0 : 0 ≤ r) (hr1 : r < 1)
    (hsz : m.size = PLAYER_SIZE) (hinv : posInv m) :
    posInv (newMembership r color) ∧ posInv (handleInput sqrt m data) := by
  constructor
  · unfold posInv newMembership
    refine ⟨?_, ?_, ?_, ?_⟩
    · show PLAYER_SIZE ≤ SAFE_ZONE_X_BOUNDARY / 2
      norm_num [PLAYER_SIZE, SAFE_ZONE_X_BOUNDARY, CANVAS_WIDTH]
    · show SAFE_ZONE_X_BOUNDARY / 2 ≤ CANVAS_WIDTH - PLAYER_SIZE
      norm_num [PLAYER_SIZE, SAFE_ZONE_X_BOUNDARY, CANVAS_WIDTH]
    · show PLAYER_SIZE ≤ CANVAS_HEIGHT / 2 + (r - 0.5) * 100
      rw [show (0.5 : ℚ) = 1/2 by norm_num]
      unfold PLAYER_SIZE CANVAS_HEIGHT
      linarith
    · show CANVAS_HEIGHT / 2 + (r - 0.5) * 100 ≤ CANVAS_HEIGHT - PLAYER_SIZE
      rw [show (0.5 : ℚ) = 1/2 by norm_num]
      unfold PLAYER_SIZE CANVAS_HEIGHT
      linarith
  · cases halive : m.isAlive with
    | false =>
      unfold handleInput
      rw [if_neg (by simp [halive])]
      exact hinv
    | true =>
      unfold handleInput
      rw [if_pos halive]
      unfold posInv
      dsimp only
      rw [applyInputUpdates_size, hsz]
      have hw : PLAYER_SIZE ≤ CANVAS_WIDTH - PLAYER_SIZE := by
        norm_num [PLAYER_SIZE, CANVAS_WIDTH]
      have hh : PLAYER_SIZE ≤ CANVAS_HEIGHT - PLAYER_SIZE := by
        norm_num [PLAYER_SIZE, CANVAS_HEIGHT]
      exact ⟨le_max_left _ _, max_le hw (min_le_left _ _),
             le_max_left _ _, max_le hh (min_le_left _ _)⟩

/-- An input payload with out-of-field pointer coordinates, for the C5
witness. -/
def inputProbe : InputData :=
  { keys := some ["w", "d"], mousePos := some (123456, -999), useMouse := some true }

theorem claim_C5_clamping_witness :
    (0 : ℚ) ≤ 1/2 ∧ (1/2 : ℚ) < 1 ∧ memberOutside.size = PLAYER_SIZE ∧
    posInv memberOutside ∧
    (posInv (newMembership (1/2) "#FF6347") ∧
     posInv (handleInput (fun q => q) memberOutside inputProbe)) := by
  have hinv : posInv memberOutside := by
    unfold posInv memberOutside
    norm_num [PLAYER_SIZE, CANVAS_WIDTH, CANVAS_HEIGHT]
  exact ⟨by norm_num, by norm_num, rfl, hinv,
    claim_C5_clamping (fun q => q) memberOutside inputProbe (1/2) "#FF6347"
      (by norm_num) (by norm_num) rfl hinv⟩

/-! ### Claim C1: the respawn cooldown gate -/

theorem jsCeilDiv_pos {x : ℤ} (h : 0 < x) : 0 < jsCeilDiv x 1000 := by
  unfold jsCeilDiv
  rw [Int.fdiv_eq_ediv _ (by norm_num)]
  omega

/-- Claim C1: a connection from an IP whose death record is younger than the
cooldown window is rejected with a structured respawn-timeout message
carrying a positive number of remaining seconds and a policy-violation close
(code 1008), and the whole server state is left untouched (no Player or
Lobby allocated); a connection from the same IP once the cooldown has
elapsed is accepted and a Player record is created. Death records carry a
Date.now() timestamp, hence positive. -/
theorem claim_C1_respawn_guard (st : ServerState) (ip : String) (now : ℤ)
    (newPid : String) (ts : ℤ)
    (hts : lookupKey ip st.recentlyDeadIPs = some ts) (hpos : 0 < ts) :
    (now - ts < RESPAWN_TIMEOUT →
      0 < jsCeilDiv (RESPAWN_TIMEOUT - (now - ts)) 1000 ∧
      handleConnection st ip now newPid =
        (st,
         ConnOutcome.rejected (jsCeilDiv (RESPAWN_TIMEOUT - (now - ts)) 1000) 1008,
         [Event.send newPid
           (SMsg.respawnTimeout (jsCeilDiv (RESPAWN_TIMEOUT - (now - ts)) 1000))])) ∧
    (RESPAWN_TIMEOUT ≤ now - ts →
      (handleConnection st ip now newPid).2.1 = ConnOutcome.accepted newPid ∧
      lookupKey newPid (handleConnection st ip now newPid).1.players =
        some { username := "Player_" ++ jsSubstrTo 4 newPid, ip := ip, lobbyId := none }) := by
  have htsne : (ts : ℤ) ≠ 0 := by omega
  constructor
  · intro hlt
    refine ⟨jsCeilDiv_pos (by omega), ?_⟩
    simp only [handleConnection, hts, Option.getD_some]
    rw [if_pos htsne, if_pos hlt]
  · intro hge
    simp only [handleConnection, hts, Option.getD_some]
    rw [if_pos htsne, if_neg (by omega : ¬ now - ts < RESPAWN_TIMEOUT)]
    unfold acceptConnection
    exact ⟨rfl, lookupKey_setKey_self _ _ _⟩

/-- A server state holding one death record, for the C1 witness. -/
def guardState : ServerState :=
  { players := [], lobbies := [], recentlyDeadIPs := [("1.2.3.4", 1000)],
    mainLobbyId := "m0", globalColorIndex := 0 }

theorem claim_C1_respawn_guard_witness :
    lookupKey "1.2.3.4" guardState.recentlyDeadIPs = some 1000 ∧ (0 : ℤ) < 1000 ∧
    (((5000 : ℤ) - 1000 < RESPAWN_TIMEOUT →
      0 < jsCeilDiv (RESPAWN_TIMEOUT - ((5000 : ℤ) - 1000)) 1000 ∧
      handleConnection guardState "1.2.3.4" 5000 "abcdef" =
        (guardState,
         ConnOutcome.rejected (jsCeilDiv (RESPAWN_TIMEOUT - ((5000 : ℤ) - 1000)) 1000) 1008,
         [Event.send "abcdef"
           (SMsg.respawnTimeout (jsCeilDiv (RESPAWN_TIMEOUT - ((5000 : ℤ) - 1000)) 1000))])) ∧
     (RESPAWN_TIMEOUT ≤ (5000 : ℤ) - 1000 →
      (handleConnection guardState "1.2.3.4" 5000 "abcdef").2.1 =
        ConnOutcome.accepted "abcdef" ∧
      lookupKey "abcdef" (handleConnection guardState "1.2.3.4" 5000 "abcdef").1.players =
        some { username := "Player_" ++ jsSubstrTo 4 "abcdef", ip := "1.2.3.4",
               lobbyId := none })) :=
  ⟨rfl, by norm_num,
   claim_C1_respawn_guard guardState "1.2.3.4" 5000 "abcdef" 1000 rfl (by norm_num)⟩

/-! ### Preservation lemmas for the registry operations -/

theorem stopGameIfEmpty_recentlyDeadIPs (st : ServerState) (lobbyId : String) :
    ((stopGameIfEmpty st lobbyId).1).recentlyDeadIPs = st.recentlyDeadIPs := by
  unfold stopGameIfEmpty
  cases lookupKey lobbyId st.lobbies with
  | none => rfl
  | some lobby =>
    dsimp only
    split <;> rfl

theorem stopGameIfEmpty_players (st : ServerState) (lobbyId : String) :
    ((stopGameIfEmpty st lobbyId).1).players = st.players := by
  unfold stopGameIfEmpty
  cases lookupKey lobbyId st.lobbies with
  | none => rfl
  | some lobby =>
    dsimp only
    split <;> rfl

theorem stopGameIfEmpty_lobbies_ne (st : ServerState) (lobbyId k : String)
    (hk : k ≠ lobbyId) :
    lookupKey k ((stopGameIfEmpty st lobbyId).1).lobbies = lookupKey k st.lobbies := by
  unfold stopGameIfEmpty
  cases lookupKey lobbyId st.lobbies with
  | none => rfl
  | some lobby =>
    dsimp only
    split
    · rfl
    · exact lookupKey_setKey_ne hk _ _

theorem stopGameIfEmpty_lobbyPlayers (st : ServerState) (lobbyId k : String) (l : Lobby)
    (h : lookupKey k ((stopGameIfEmpty st lobbyId).1).lobbies = some l) :
    ∃ l0, lookupKey k st.lobbies = some l0 ∧ l.players = l0.players := by
  unfold stopGameIfEmpty at h
  cases hl : lookupKey lobbyId st.lobbies with
  | none =>
    rw [hl] at h
    exact ⟨l, h, rfl⟩
  | some lobby =>
    rw [hl] at h
    dsimp only at h
    split at h
    · exact ⟨l, h, rfl⟩
    · by_cases hk : k = lobbyId
      · subst hk
        rw [lookupKey_setKey_self] at h
        have := Option.some.inj h
        subst this
        exact ⟨lobby, hl, rfl⟩
      · rw [lookupKey_setKey_ne hk] at h
        exact ⟨l, h, rfl⟩

theorem startGameIfNeeded_recentlyDeadIPs (st : ServerState) (lobbyId : String) (now : ℤ) :
    ((startGameIfNeeded st lobbyId now).1).recentlyDeadIPs = st.recentlyDeadIPs := by
  unfold startGameIfNeeded
  cases lookupKey lobbyId st.lobbies with
  | none => rfl
  | some lobby =>
    dsimp only
    split <;> rfl

theorem startGameIfNeeded_players (st : ServerState) (lobbyId : String) (now : ℤ) :
    ((startGameIfNeeded st lobbyId now).1).players = st.players := by
  unfold startGameIfNeeded
  cases lookupKey lobbyId st.lobbies with
  | none => rfl
  | some lobby =>
    dsimp only
    split <;> rfl

theorem startGameIfNeeded_lobbies_ne (st : ServerState) (lobbyId : String) (now : ℤ)
    (k : String) (hk : k ≠ lobbyId) :
    lookupKey k ((startGameIfNeeded st lobbyId now).1).lobbies = lookupKey k st.lobbies := by
  unfold startGameIfNeeded
  cases lookupKey lobbyId st.lobbies with
  | none => rfl
  | some lobby =>
    dsimp only
    split
    · rfl
    · exact lookupKey_setKey_ne hk _ _

theorem startGameIfNeeded_lobbyPlayers (st : ServerState) (lobbyId : String) (now : ℤ)
    (k : String) (l : Lobby)
    (h : lookupKey k ((startGameIfNeeded st lobbyId now).1).lobbies = some l) :
    ∃ l0, lookupKey k st.lobbies = some l0 ∧ l.players = l0.players := by
  unfold startGameIfNeeded at h
  cases hl : lookupKey lobbyId st.lobbies with
  | none =>
    rw [hl] at h
    exact ⟨l, h, rfl⟩
  | some lobby =>
    rw [hl] at h
    dsimp only at h
    split at h
    · exact ⟨l, h, rfl⟩
    · unfold startSpawning at h
      dsimp only at h
      by_cases hk : k = lobbyId
      · subst hk
        rw [lookupKey_setKey_self] at h
        split at h <;>
          (have h2 := Option.some.inj h
           subst h2
           exact ⟨lobby, hl, rfl⟩)
      · rw [lookupKey_setKey_ne hk] at h
        exact ⟨l, h, rfl⟩

theorem removePlayerFromLobby_deadIPs_noRecord (st : ServerState)
    (playerId lobbyId : String) (now : ℤ) (lobby : Lobby) (pl : Membership)
    (p : GPlayer)
    (hl : lookupKey lobbyId st.lobbies = some lobby)
    (hm : lookupKey playerId lobby.players = some pl)
    (hp : lookupKey playerId st.players = some p) :
    ((removePlayerFromLobby st playerId lobbyId false now).1).recentlyDeadIPs =
      st.recentlyDeadIPs := by
  unfold removePlayerFromLobby
  rw [hl]
  dsimp only
  rw [hm]
  dsimp only
  rw [hp]
  dsimp only
  simp only [Bool.false_and, Bool.false_eq_true, if_false]
  split
  · rfl
  · rw [stopGameIfEmpty_recentlyDeadIPs]

theorem removePlayerFromLobby_lobbies_ne (st : ServerState) (playerId lobbyId : String)
    (recordDeadIp : Bool) (now : ℤ) (k : String) (lobby : Lobby) (pl : Membership)
    (p : GPlayer) (hk : k ≠ lobbyId)
    (hl : lookupKey lobbyId st.lobbies = some lobby)
    (hm : lookupKey playerId lobby.players = some pl)
    (hp : lookupKey playerId st.players = some p) :
    lookupKey k ((removePlayerFromLobby st playerId lobbyId recordDeadIp now).1).lobbies =
      lookupKey k st.lobbies := by
  unfold removePlayerFromLobby
  rw [hl]
  dsimp only
  rw [hm]
  dsimp only
  rw [hp]
  dsimp only
  split
  · rw [lookupKey_eraseKey_ne hk, lookupKey_setKey_ne hk]
  · rw [stopGameIfEmpty_lobbies_ne _ _ _ hk]
    dsimp only
    rw [lookupKey_setKey_ne hk]

theorem removePlayerFromLobby_players_self (st : ServerState) (playerId lobbyId : String)
    (recordDeadIp : Bool) (now : ℤ) (lobby : Lobby) (m : Membership) (p : GPlayer)
    (hl : lookupKey lobbyId st.lobbies = some lobby)
    (hm : lookupKey playerId lobby.players = some m)
    (hp : lookupKey playerId st.players = some p) :
    lookupKey playerId
        ((removePlayerFromLobby st playerId lobbyId recordDeadIp now).1).players =
      some { p with lobbyId := none } := by
  unfold removePlayerFromLobby
  rw [hl]
  dsimp only
  rw [hm]
  dsimp only
  rw [hp]
  dsimp only
  split
  · exact lookupKey_setKey_self _ _ _
  · rw [stopGameIfEmpty_players]
    exact lookupKey_setKey_self _ _ _

theorem removePlayerFromLobby_membership (st : ServerState) (playerId lobbyId : String)
    (recordDeadIp : Bool) (now : ℤ) (lobby : Lobby) (m : Membership) (p : GPlayer)
    (hl : lookupKey lobbyId st.lobbies = some lobby)
    (hm : lookupKey playerId lobby.players = some m)
    (hp : lookupKey playerId st.players = some p) :
    ∀ l, lookupKey lobbyId
          ((removePlayerFromLobby st playerId lobbyId recordDeadIp now).1).lobbies =
        some l →
      lookupKey playerId l.players = none := by
  intro l h
  unfold removePlayerFromLobby at h
  rw [hl] at h
  dsimp only at h
  rw [hm] at h
  dsimp only at h
  rw [hp] at h
  dsimp only at h
  split at h
  · rw [lookupKey_eraseKey_self] at h
    exact absurd h (by simp)
  · obtain ⟨l0, hl0, hpl⟩ := stopGameIfEmpty_lobbyPlayers _ _ _ _ h
    dsimp only at hl0
    rw [lookupKey_setKey_self] at hl0
    have := Option.some.inj hl0
    subst this
    rw [hpl]
    exact lookupKey_eraseKey_self _ _

/-! ### Claim C8: a lobby switch is not a death -/

/-- Claim C8: when a player who is already a member of a different lobby
joins a new lobby, the player is removed from the old lobby without any
write to the RespawnGuard IP table, even if the player was dead there at the
time of the switch: the join succeeds, the old membership is gone, and
recentlyDeadIPs is exactly what it was before. -/
theorem claim_C8_lobby_switch (st : ServerState) (pid newLid oldLid : String)
    (p : GPlayer) (oldLobby : Lobby) (m : Membership) (r : ℚ) (now : ℤ)
    (hp : lookupKey pid st.players = some p)
    (hpl : p.lobbyId = some oldLid)
    (hne : oldLid ≠ newLid)
    (hol : lookupKey oldLid st.lobbies = some oldLobby)
    (hm : lookupKey pid oldLobby.players = some m)
    (hdead : m.isAlive = false)
    (hnl : (lookupKey newLid st.lobbies).isSome = true) :
    ((addPlayerToLobby st pid newLid r now).1).recentlyDeadIPs = st.recentlyDeadIPs ∧
    (∀ l, lookupKey oldLid ((addPlayerToLobby st pid newLid r now).1).lobbies = some l →
      lookupKey pid l.players = none) ∧
    (addPlayerToLobby st pid newLid r now).2.2 = true := by
  obtain ⟨target, htl⟩ := Option.isSome_iff_exists.mp hnl
  have hremdead := removePlayerFromLobby_deadIPs_noRecord st pid oldLid now oldLobby m p
    hol hm hp
  have hremne := removePlayerFromLobby_lobbies_ne st pid oldLid false now newLid oldLobby
    m p (Ne.symm hne) hol hm hp
  have hrempl := removePlayerFromLobby_players_self st pid oldLid false now oldLobby m p
    hol hm hp
  have hremmem := removePlayerFromLobby_membership st pid oldLid false now oldLobby m p
    hol hm hp
  unfold addPlayerToLobby
  rw [htl, hp]
  dsimp only
  rw [hpl]
  dsimp only
  rw [if_pos ⟨hne, by rw [hol]; rfl⟩]
  rw [hremne, htl, hrempl]
  dsimp only
  refine ⟨?_, ?_, rfl⟩
  · rw [startGameIfNeeded_recentlyDeadIPs]
    exact hremdead
  · intro l h
    rw [startGameIfNeeded_lobbies_ne _ _ _ _ hne] at h
    dsimp only at h
    rw [lookupKey_setKey_ne hne] at h
    exact hremmem l h

/-- A state with a dead membership in one lobby and a second lobby to switch
to, for the C8 witness. -/
def switchState : ServerState :=
  { players := [("p7", { username := "Ann", ip := "2.2.2.2", lobbyId := some "lobA" })],
    lobbies :=
      [("main0",
        { id := "main0", name := "Main Evade Arena", password := none,
          passwordProtected := false, players := [], obstacles := [], lobbyLevel := 1,
          score := 0, gameTimeStart := 0, nextObstacleId := 0, gameRunning := false,
          gameLoopInterval := false, spawnTimer := false }),
       ("lobA",
        { id := "lobA", name := "RoomA", password := none, passwordProtected := false,
          players := [("p7", { memberOutside with isAlive := false })], obstacles := [],
          lobbyLevel := 1, score := 0, gameTimeStart := 0, nextObstacleId := 0,
          gameRunning := true, gameLoopInterval := true, spawnTimer := true }),
       ("lobB",
        { id := "lobB", name := "RoomB", password := none, passwordProtected := false,
          players := [], obstacles := [], lobbyLevel := 1, score := 0,
          gameTimeStart := 0, nextObstacleId := 0, gameRunning := false,
          gameLoopInterval := false, spawnTimer := false })],
    recentlyDeadIPs := [], mainLobbyId := "main0", globalColorIndex := 0 }

theorem claim_C8_lobby_switch_witness :
    ((addPlayerToLobby switchState "p7" "lobB" (1/2) 60000).1).recentlyDeadIPs =
      switchState.recentlyDeadIPs ∧
    (∀ l, lookupKey "lobA" ((addPlayerToLobby switchState "p7" "lobB" (1/2) 60000).1).lobbies =
        some l →
      lookupKey "p7" l.players = none) ∧
    (addPlayerToLobby switchState "p7" "lobB" (1/2) 60000).2.2 = true :=
  claim_C8_lobby_switch switchState "p7" "lobB" "lobA"
    { username := "Ann", ip := "2.2.2.2", lobbyId := some "lobA" }
    (switchState.lobbies.get ⟨1, by decide⟩).2 { memberOutside with isAlive := false }
    (1/2) 60000 rfl rfl (by decide) rfl rfl rfl rfl

/-! ### Claim C7: what happens when the last member leaves -/

/-- Claim C7: when the last member leaves a lobby that is not the main
lobby, both periodic tasks are cancelled, the lobby disappears from the
registry and from the lobby-browser list, and a room-list update is sent to
every player that is not in a lobby afterwards; when the last member leaves
the main lobby, the lobby object persists with both tasks cancelled, the
running flag cleared and the obstacle list cleared. The hypothesis hwf
states that every registered lobby carries its own registry key as id, which
createLobby guarantees. -/
theorem claim_C7_empty_lobby (st : ServerState) (pid lid : String) (flag : Bool)
    (now : ℤ) (lobby : Lobby) (m : Membership) (p : GPlayer)
    (hwf : ∀ q ∈ st.lobbies, q.2.id = q.1)
    (hl : lookupKey lid st.lobbies = some lobby)
    (hm : lookupKey pid lobby.players = some m)
    (hp : lookupKey pid st.players = some p)
    (he : eraseKey pid lobby.players = [])
    (hst : lobby.spawnTimer = true)
    (hgl : lobby.gameLoopInterval = true)
    (hrun : lobby.gameRunning = true) :
    (lid ≠ st.mainLobbyId →
      lookupKey lid ((removePlayerFromLobby st pid lid flag now).1).lobbies = none ∧
      (∀ info ∈ getLobbyList (removePlayerFromLobby st pid lid flag now).1,
        info.id ≠ lid) ∧
      Event.cancelSpawnTimer lid ∈ (removePlayerFromLobby st pid lid flag now).2 ∧
      Event.cancelGameLoop lid ∈ (removePlayerFromLobby st pid lid flag now).2 ∧
      (∀ q ∈ ((removePlayerFromLobby st pid lid flag now).1).players,
        q.2.lobbyId = none →
        Event.send q.1
            (SMsg.lobbyList (getLobbyList (removePlayerFromLobby st pid lid flag now).1)) ∈
          (removePlayerFromLobby st pid lid flag now).2)) ∧
    (lid = st.mainLobbyId →
      ∃ l, lookupKey lid ((removePlayerFromLobby st pid lid flag now).1).lobbies = some l ∧
        l.obstacles = [] ∧ l.gameRunning = false ∧ l.spawnTimer = false ∧
        l.gameLoopInterval = false ∧
        Event.cancelSpawnTimer lid ∈ (removePlayerFromLobby st pid lid flag now).2 ∧
        Event.cancelGameLoop lid ∈ (removePlayerFromLobby st pid lid flag now).2) := by
  unfold removePlayerFromLobby
  rw [hl]
  dsimp only
  rw [hm]
  dsimp only
  rw [hp]
  dsimp only
  rw [he]
  constructor
  · intro hne
    have hcond :
        (lid != st.mainLobbyId && (List.length ([] : List (String × Membership)) == 0)) =
          true := by
      simp [hne]
    rw [if_pos hcond]
    dsimp only
    rw [hst, hgl]
    refine ⟨lookupKey_eraseKey_self _ _, ?_, by simp, by simp, ?_⟩
    · intro info hinfo
      unfold getLobbyList at hinfo
      dsimp only at hinfo
      obtain ⟨q, hq, hinfo⟩ := List.mem_map.mp hinfo
      obtain ⟨hq1, hq2⟩ := mem_of_mem_eraseKey hq
      rcases mem_of_mem_setKey hq1 with h1 | h1
      · exact absurd (congrArg Prod.fst h1) hq2
      · intro hbad
        rw [← hinfo] at hbad
        dsimp only at hbad
        rw [hwf q h1] at hbad
        exact hq2 hbad
    · intro q hq hnone
      refine List.mem_append.mpr (Or.inr ?_)
      unfold broadcastLobbyListUpdate
      refine List.mem_map.mpr ⟨q, List.mem_filter.mpr ⟨hq, ?_⟩, rfl⟩
      rw [hnone]
      rfl
  · intro heq
    have hcond :
        ¬ ((lid != st.mainLobbyId && (List.length ([] : List (String × Membership)) == 0)) =
          true) := by
      simp [heq]
    rw [if_neg hcond]
    unfold stopGameIfEmpty
    dsimp only
    rw [lookupKey_setKey_self]
    dsimp only
    rw [if_neg (by simp [hrun])]
    dsimp only
    rw [hst, hgl]
    refine ⟨_, lookupKey_setKey_self _ _ _, rfl, rfl, rfl, rfl, by simp, by simp⟩

/-- The lobby record of the custom lobby used by the C7 witness. -/
def lobbyC : Lobby :=
  { id := "lobC", name := "RoomC", password := none, passwordProtected := false,
    players := [("p9", memberOutside)], obstacles := [], lobbyLevel := 1, score := 7,
    gameTimeStart := 0, nextObstacleId := 0, gameRunning := true,
    gameLoopInterval := true, spawnTimer := true }

/-- A state in which p9 is the last member of the custom lobby lobC and p10
sits in the lobby browser, for the C7 witness. -/
def leaveState : ServerState :=
  { players := [("p9", { username := "Bob", ip := "3.3.3.3", lobbyId := some "lobC" }),
                ("p10", { username := "Cyn", ip := "4.4.4.4", lobbyId := none })],
    lobbies :=
      [("main0",
        { id := "main0", name := "Main Evade Arena", password := none,
          passwordProtected := false, players := [], obstacles := [], lobbyLevel := 1,
          score := 0, gameTimeStart := 0, nextObstacleId := 0, gameRunning := false,
          gameLoopInterval := false, spawnTimer := false }),
       ("lobC", lobbyC)],
    recentlyDeadIPs := [], mainLobbyId := "main0", globalColorIndex := 3 }

theorem claim_C7_empty_lobby_witness :
    lookupKey "lobC" ((removePlayerFromLobby leaveState "p9" "lobC" true 1234).1).lobbies =
      none ∧
    (∀ info ∈ getLobbyList (removePlayerFromLobby leaveState "p9" "lobC" true 1234).1,
      info.id ≠ "lobC") ∧
    Event.cancelSpawnTimer "lobC" ∈
      (removePlayerFromLobby leaveState "p9" "lobC" true 1234).2 ∧
    Event.cancelGameLoop "lobC" ∈
      (removePlayerFromLobby leaveState "p9" "lobC" true 1234).2 := by
  have h := claim_C7_empty_lobby leaveState "p9" "lobC" true 1234 lobbyC memberOutside
    { username := "Bob", ip := "3.3.3.3", lobbyId := some "lobC" }
    (by decide) rfl rfl rfl (by decide) rfl rfl rfl
  have h2 := h.1 (by decide)
  exact ⟨h2.1, h2.2.1, h2.2.2.1, h2.2.2.2.1⟩

/-! ### Claim C9: create-room followed by join-room -/

@[simp]
theorem createLobby_snd_id (st : ServerState) (lid nm : String) (pw : Option String)
    (now : ℤ) : (createLobby st lid nm pw now).2.id = lid := rfl

/-- addPlayerToLobby for a player who is in no lobby yet: the membership is
created in the target lobby, the global record points at it, and the call
reports success. -/
theorem addPlayerToLobby_fresh (st : ServerState) (pid lid : String) (r : ℚ)
    (now : ℤ) (target : Lobby) (p : GPlayer)
    (hl : lookupKey lid st.lobbies = some target)
    (hp : lookupKey pid st.players = some p)
    (hnol : p.lobbyId = none) :
    ∃ l, lookupKey lid ((addPlayerToLobby st pid lid r now).1).lobbies = some l ∧
      lookupKey pid l.players =
        some (newMembership r (getRandomColor st.globalColorIndex)) ∧
      lookupKey pid ((addPlayerToLobby st pid lid r now).1).players =
        some { p with lobbyId := some lid } ∧
      (addPlayerToLobby st pid lid r now).2.2 = true := by
  unfold addPlayerToLobby
  rw [hl, hp]
  dsimp only
  rw [hnol]
  dsimp only
  rw [hl, hp]
  dsimp only
  unfold startGameIfNeeded
  rw [lookupKey_setKey_self]
  dsimp only
  split
  · exact ⟨_, lookupKey_setKey_self _ _ _, lookupKey_setKey_self _ _ _,
      lookupKey_setKey_self _ _ _, rfl⟩
  · unfold startSpawning
    dsimp only
    refine ⟨_, lookupKey_setKey_self _ _ _, ?_, lookupKey_setKey_self _ _ _, rfl⟩
    split <;> exact lookupKey_setKey_self _ _ _

/-- Claim C9: a successful create-room request (valid, non-colliding name,
player not yet in a lobby) immediately followed by a join-room request from
the same player for the created room id, with any password, leaves the
player a member of the created lobby: the membership exists and the global
player record points at the created lobby. The in-lobby join is ignored by
the dispatcher, so the membership established by the create persists. -/
theorem claim_C9_create_join (st : ServerState) (pid rawName : String)
    (pwd : Option String) (freshId freshId2 : String) (r r2 : ℚ) (now now2 : ℤ)
    (joinPwd : Option String) (p : GPlayer)
    (hp : lookupKey pid st.players = some p)
    (hnol : p.lobbyId = none)
    (hname : (jsTrim rawName).length ≠ 0)
    (hcol : (st.lobbies.any fun l =>
      jsToLower l.2.name == jsToLower (jsTrim (jsSubstrTo 30 rawName))) = false) :
    ∃ lobby,
      lookupKey freshId
          ((handleMessage
            (handleMessage st pid (CMsg.createLobby (some rawName) pwd) freshId r now).1
            pid (CMsg.joinLobby (some freshId) joinPwd) freshId2 r2 now2).1).lobbies =
        some lobby ∧
      (lookupKey pid lobby.players).isSome = true ∧
      lookupKey pid
          ((handleMessage
            (handleMessage st pid (CMsg.createLobby (some rawName) pwd) freshId r now).1
            pid (CMsg.joinLobby (some freshId) joinPwd) freshId2 r2 now2).1).players =
        some { p with lobbyId := some freshId } := by
  have hne1 : ¬ (((jsTrim rawName).length == 0) = true) := by
    simpa using hname
  have hne2 : ¬ ((st.lobbies.any fun l =>
      jsToLower l.2.name == jsToLower (jsTrim (jsSubstrTo 30 rawName))) = true) := by
    simp [hcol]
  obtain ⟨lobby1, hl1, hm1, hp1, hsucc⟩ :=
    addPlayerToLobby_fresh
      (createLobby st freshId (jsTrim (jsSubstrTo 30 rawName))
        (normalizePassword pwd) now).1
      pid freshId r now _ p
      (by unfold createLobby; dsimp only; exact lookupKey_setKey_self _ _ _)
      (by unfold createLobby; dsimp only; exact hp)
      hnol
  have hmsg1 :
      (handleMessage st pid (CMsg.createLobby (some rawName) pwd) freshId r now).1 =
      (addPlayerToLobby
        (createLobby st freshId (jsTrim (jsSubstrTo 30 rawName))
          (normalizePassword pwd) now).1
        pid freshId r now).1 := by
    unfold handleMessage
    rw [hp]
    dsimp only
    rw [hnol]
    dsimp only
    unfold handleLobbyBrowserCommands
    dsimp only
    rw [if_neg hne1, if_neg hne2]
    simp only [createLobby_snd_id]
    rw [if_pos hsucc]
  have hmsg2 :
      (handleMessage
        (addPlayerToLobby
          (createLobby st freshId (jsTrim (jsSubstrTo 30 rawName))
            (normalizePassword pwd) now).1
          pid freshId r now).1
        pid (CMsg.joinLobby (some freshId) joinPwd) freshId2 r2 now2).1 =
      (addPlayerToLobby
        (createLobby st freshId (jsTrim (jsSubstrTo 30 rawName))
          (normalizePassword pwd) now).1
        pid freshId r now).1 := by
    unfold handleMessage
    rw [hp1]
    dsimp only
    unfold handleInGameCommands
    rw [hl1]
    dsimp only
    rw [hm1]
  rw [hmsg1, hmsg2]
  exact ⟨lobby1, hl1, by rw [hm1]; rfl, hp1⟩

/-- A state with one browser-bound player and only the main lobby, for the
C9 witness. -/
def browserState : ServerState :=
  { players := [("pz", { username := "Zoe", ip := "5.5.5.5", lobbyId := none })],
    lobbies :=
      [("main0",
        { id := "main0", name := "Main Evade Arena", password := none,
          passwordProtected := false, players := [], obstacles := [], lobbyLevel := 1,
          score := 0, gameTimeStart := 0, nextObstacleId := 0, gameRunning := false,
          gameLoopInterval := false, spawnTimer := false })],
    recentlyDeadIPs := [], mainLobbyId := "main0", globalColorIndex := 0 }

theorem claim_C9_create_join_witness :
    ∃ lobby,
      lookupKey "fresh1"
          ((handleMessage
            (handleMessage browserState "pz" (CMsg.createLobby (some "My Room") none)
              "fresh1" (1/2) 100).1
            "pz" (CMsg.joinLobby (some "fresh1") none) "fresh2" (1/3) 200).1).lobbies =
        some lobby ∧
      (lookupKey "pz" lobby.players).isSome = true ∧
      lookupKey "pz"
          ((handleMessage
            (handleMessage browserState "pz" (CMsg.createLobby (some "My Room") none)
              "fresh1" (1/2) 100).1
            "pz" (CMsg.joinLobby (some "fresh1") none) "fresh2" (1/3) 200).1).players =
        some { username := "Zoe", ip := "5.5.5.5", lobbyId := some "fresh1" } :=
  claim_C9_create_join browserState "pz" "My Room" none "fresh1" "fresh2" (1/2) (1/3)
    100 200 none { username := "Zoe", ip := "5.5.5.5", lobbyId := none }
    rfl rfl (by decide) (by decide)

end Evades
